import Mathlib

/-!
Verification development for the "Alien Invasion" simulation core
(src/src/game_logic.py). Python floats are modelled as rationals, Python
ints as integers, and the per-tick mutation of the game-logic process as
pure state-passing functions translated from the source.
-/

namespace AlienInvasion

/-- Gravity constant `GRAVITY = 0.5` from game_logic.py. -/
def gravity : ℚ := 1 / 2

/-- `EntityType` enum from game_logic.py. -/
inductive EntityType where
  | player
  | enemy
  | platform
  | projectile
  | powerup
  deriving DecidableEq, Repr

/-- `GameState` enum from game_logic.py (MENU, PLAYING, PAUSED, GAME_OVER). -/
inductive GameState where
  | menu
  | playing
  | paused
  | gameOver
  deriving DecidableEq, Repr

/-- The `Entity` class from game_logic.py. Core fields come from
`Entity.__init__`; the trailing fields model the attributes the source adds
dynamically to particular kinds (`on_ground`, `enemy_type`, `wave`,
`damage`, `invincible`). -/
structure Entity where
  id : ℕ
  etype : EntityType
  x : ℚ
  y : ℚ
  width : ℚ
  height : ℚ
  vx : ℚ := 0
  vy : ℚ := 0
  health : ℤ := 30
  active : Bool := true
  onGround : Bool := false
  enemyType : ℤ := 1
  wave : ℤ := 1
  damage : ℤ := 10
  invincible : Bool := false
  deriving DecidableEq, Repr

/-- `Entity.check_collision`: symmetric AABB overlap test. -/
def Entity.checkCollision (a b : Entity) : Bool :=
  decide (a.x < b.x + b.width) && decide (b.x < a.x + a.width) &&
  decide (a.y < b.y + b.height) && decide (b.y < a.y + a.height)

/-- `Entity.update`: translate the entity by its velocity. -/
def Entity.move (e : Entity) : Entity :=
  { e with x := e.x + e.vx, y := e.y + e.vy }

/-! ## Player physics (`GameLogicProcess.update_player`, physics tail) -/

/-- The gravity application, position integration, and `on_ground = False`
reset that `update_player` performs before the platform-collision loop.
Gravity is added to `velocity_y` first, then `Entity.update` adds the new
velocity to the position. -/
def integratePlayer (p : Entity) : Entity :=
  let p1 := { p with vy := p.vy + gravity }
  { p1.move with onGround := false }

/-- One iteration of the platform-collision loop of `update_player`:
land-on-top (previous bottom edge at or above the platform top), the
hit-from-below branch, then the two side-push branches. -/
def resolvePlatformCollision (p plat : Entity) : Entity :=
  if p.checkCollision plat then
    if 0 < p.vy ∧ p.y + p.height - p.vy ≤ plat.y then
      { p with y := plat.y - p.height, vy := 0, onGround := true }
    else if p.vy < 0 ∧ plat.y + plat.height ≤ p.y then
      { p with y := plat.y + plat.height, vy := 0 }
    else if 0 < p.vx then
      { p with x := plat.x - p.width }
    else if p.vx < 0 then
      { p with x := plat.x + plat.width }
    else p
  else p

/-- The whole physics tail of `update_player` for one tick: gravity,
position update, ground-flag reset, then the collision loop over the
platform list. -/
def updatePlayerPhysics (p : Entity) (platforms : List Entity) : Entity :=
  platforms.foldl resolvePlatformCollision (integratePlayer p)

/-! ## Shared scalars and enemy contact (`GameLogicProcess.update_entities`) -/

/-- The process-shared scalars touched by `update_entities`:
`player_health`, `player_score` (multiprocessing `Value('i', ...)`) and the
`game_state` enum value. -/
structure SharedState where
  health : ℤ
  score : ℤ
  gameState : GameState
  deriving DecidableEq, Repr

/-- The enemy-vs-player block of `update_entities`: if the enemy overlaps
the player, subtract 10 from shared health (no clamping in the source) and
set the game state to GAME_OVER when the new health is `<= 0`. -/
def applyEnemyContact (player : Entity) (s : SharedState) (e : Entity) : SharedState :=
  if e.checkCollision player then
    let h := s.health - 10
    { s with
      health := h
      gameState := if h ≤ 0 then GameState.gameOver else s.gameState }
  else s

/-- One pass of the enemy loop body of `update_entities` for a single
enemy: `enemy.update()` moves it, the off-screen test
(`x < -100 or x > 1300`) marks it for removal, and the contact check runs
against the moved enemy. Returns the moved enemy, the removal flag, and
the updated shared scalars. -/
def enemyTickOne (player : Entity) (s : SharedState) (e : Entity) :
    Entity × Bool × SharedState :=
  let e1 := e.move
  let offscreen := decide (e1.x < -100) || decide (1300 < e1.x)
  (e1, offscreen, applyEnemyContact player s e1)

/-! ## Projectile-vs-enemy resolution (`GameLogicProcess.update_entities`) -/

/-- The score computed in `update_entities` when an enemy dies:
`base_score + enemy_type_bonus + wave_bonus` with `base_score = 10`,
`enemy_type_bonus = (enemy.enemy_type - 1) * 5` and
`wave_bonus = (wave_number - 1) * 2`. -/
def scoreGain (enemyType waveNumber : ℤ) : ℤ :=
  let baseScore : ℤ := 10
  let enemyTypeBonus := (enemyType - 1) * 5
  let waveBonus := (waveNumber - 1) * 2
  baseScore + enemyTypeBonus + waveBonus

/-- Result of running one player projectile against the enemy list. -/
structure HitResult where
  enemies : List Entity
  score : ℤ
  projectileRemoved : Bool
  kills : ℕ
  deriving DecidableEq, Repr

/-- The inner `for enemy in self.enemies[:]` loop of `update_entities` for
one player projectile: at the first enemy the projectile overlaps, enemy
health drops by `projectile.damage`; if the result is `<= 0` the score is
increased by `scoreGain` and the enemy removed; the projectile is removed
unconditionally on any hit and the loop breaks. -/
def projectileHitEnemies (proj : Entity) (waveNumber : ℤ) (score : ℤ) :
    List Entity → HitResult
  | [] => ⟨[], score, false, 0⟩
  | e :: rest =>
    if proj.checkCollision e then
      let h := e.health - proj.damage
      if h ≤ 0 then
        ⟨rest, score + scoreGain e.enemyType waveNumber, true, 1⟩
      else
        ⟨{ e with health := h } :: rest, score, true, 0⟩
    else
      let r := projectileHitEnemies proj waveNumber score rest
      ⟨e :: r.enemies, r.score, r.projectileRemoved, r.kills⟩

/-! ## Powerups (`GameLogicProcess.update_entities`, powerup loop) -/

/-- The Health powerup effect (`powerup_type == 1`):
`player_health.value = min(100, player_health.value + 25)`. -/
def applyHealthPowerup (h : ℤ) : ℤ :=
  min 100 (h + 25)

/-! ## Wave progression (`__init__`, `advance_wave`) -/

/-- The wave-tracking fields of `GameLogicProcess`. -/
structure WaveState where
  waveNumber : ℕ
  enemiesToKillForNextWave : ℕ
  enemiesKilledInWave : ℕ
  deriving DecidableEq, Repr

/-- Initial wave fields from `GameLogicProcess.__init__`:
`wave_number = 1`, `enemies_to_kill_for_next_wave = 10`. -/
def initWaveState : WaveState :=
  { waveNumber := 1, enemiesToKillForNextWave := 10, enemiesKilledInWave := 0 }

/-- The state change of `advance_wave`: increment `wave_number`, recompute
`enemies_to_kill_for_next_wave = 10 + (wave_number - 1) * 5`, and reset the
kill counter. -/
def advanceWave (w : WaveState) : WaveState :=
  let n := w.waveNumber + 1
  { waveNumber := n
    enemiesToKillForNextWave := 10 + (n - 1) * 5
    enemiesKilledInWave := 0 }

/-! ## Entity id allocation (`create_entity`, `reset_game`) -/

/-- The operations that touch `entity_id_counter` during one run of the
simulation process: `create_entity` (allocates the current counter value
and increments it) and `reset_game` (sets the counter back to 0). -/
inductive WorldOp where
  | create
  | resetGame
  deriving DecidableEq, Repr

/-- Ids handed out by `create_entity` along a sequence of operations,
starting from counter value `c`. -/
def allocIdsFrom : ℕ → List WorldOp → List ℕ
  | _, [] => []
  | c, WorldOp.create :: rest => c :: allocIdsFrom (c + 1) rest
  | _, WorldOp.resetGame :: rest => allocIdsFrom 0 rest

/-- Ids handed out along a run of the process (`entity_id_counter` starts
at 0 in `__init__`). -/
def allocIds (ops : List WorldOp) : List ℕ :=
  allocIdsFrom 0 ops

/-! ## Entity store removal (`update_entities` removal sites) -/

/-- The two entity indices touched by the removal sites of
`update_entities`: the global `self.entities` dict (id → entity, unique
keys) and one kind-specific list (for the sites under study,
`self.enemies`). -/
structure WorldStore where
  entities : List (ℕ × Entity)
  enemies : List Entity
  deriving DecidableEq, Repr

/-- Python's `del d[k]` on the id→entity dict: removes the key when
present, raises `KeyError` (modelled as `none`) when absent. -/
def dictDel (m : List (ℕ × Entity)) (k : ℕ) : Option (List (ℕ × Entity)) :=
  if m.any fun kv => kv.1 == k then
    some (m.filter fun kv => kv.1 != k)
  else
    none

/-- Python's `list.remove(enemy)` keyed by the entity's id: removes the
first element with that id, raises `ValueError` (modelled as `none`) when
no element matches. -/
def listRemoveById (k : ℕ) : List Entity → Option (List Entity)
  | [] => none
  | e :: rest =>
    if e.id == k then some rest
    else (listRemoveById k rest).map fun l => e :: l

/-- The paired removal performed at the `update_entities` removal sites
(`self.enemies.remove(enemy)` followed by `del self.entities[enemy.id]`),
as one operation on the store keyed by id. `none` models the exception
either Python call raises when the id is absent. -/
def removeEnemyById (w : WorldStore) (k : ℕ) : Option WorldStore :=
  match listRemoveById k w.enemies, dictDel w.entities k with
  | some es, some m => some { entities := m, enemies := es }
  | _, _ => none

/-! ## Concrete instances used to evaluate the model -/

/-- A player with the dimensions `initialize_game` uses (50 × 80). -/
def samplePlayer : Entity :=
  { id := 0, etype := EntityType.player, x := 0, y := 0, width := 50, height := 80,
    health := 100 }

/-- An enemy with the dimensions `spawn_enemies` uses (60 × 60), standing
still and overlapping `samplePlayer`. -/
def sampleEnemy : Entity :=
  { id := 1, etype := EntityType.enemy, x := 10, y := 10, width := 60, height := 60 }

/-- Shared scalars with the player at 10 health, mid-game. -/
def lowHealthShared : SharedState :=
  { health := 10, score := 0, gameState := GameState.playing }

/-- Shared scalars with the player at 5 health, mid-game. Health 5 is
reachable: e.g. 100, nine contact ticks down to 10, a Health powerup up to
35, three contact ticks down to 5. -/
def fiveHealthShared : SharedState :=
  { health := 5, score := 0, gameState := GameState.playing }

/-- A player one tick away from rising into the underside of
`lowPlatform`: top edge at y = 121, moving up at 2 units per tick. -/
def risingPlayer : Entity :=
  { id := 0, etype := EntityType.player, x := 50, y := 121, width := 50, height := 80,
    vx := 0, vy := -2, health := 100 }

/-- A platform whose underside (y + height = 120) is just above
`risingPlayer`. -/
def lowPlatform : Entity :=
  { id := 2, etype := EntityType.platform, x := 0, y := 100, width := 200, height := 20 }

/-- A player one tick away from landing on top of `groundPlatform`: bottom
edge at y = 198, falling at 4 units per tick. -/
def fallingPlayer : Entity :=
  { id := 0, etype := EntityType.player, x := 50, y := 118, width := 50, height := 80,
    vx := 0, vy := 4, health := 100 }

/-- A platform whose top (y = 200) is just below `fallingPlayer`. -/
def groundPlatform : Entity :=
  { id := 3, etype := EntityType.platform, x := 0, y := 200, width := 200, height := 20 }

/-- A primary-weapon projectile as built by `fire_projectile(weapon_type=1)`:
10 × 10 box, damage 10. -/
def primaryProjectile : Entity :=
  { id := 4, etype := EntityType.projectile, x := 100, y := 100, width := 10, height := 10,
    vx := 15, damage := 10 }

/-- A type-3 enemy with 20 health (the `spawn_enemies` base health for
type 3 in wave 1), overlapping `primaryProjectile`. -/
def fastEnemy : Entity :=
  { id := 5, etype := EntityType.enemy, x := 95, y := 95, width := 60, height := 60,
    health := 20, enemyType := 3 }

/-- `fastEnemy` after absorbing one 10-damage hit. -/
def fastEnemyHit : Entity :=
  { fastEnemy with health := 10 }

/-- A store holding one enemy (`sampleEnemy`, id 1) in both indices. -/
def sampleStore : WorldStore :=
  { entities := [(1, sampleEnemy)], enemies := [sampleEnemy] }

/-! ## Theorems -/

/-- C1: On every tick in which an enemy's box (after its move) overlaps the
player's box, shared health drops by exactly 10; the check is
level-triggered, so a second overlapping tick drops it by 10 again (20
total); and when health reaches 0 the game state transitions to GAME_OVER
on that same tick. -/
theorem contact_damage_every_tick (player e : Entity) (s : SharedState)
    (h1 : Entity.checkCollision e.move player = true)
    (h2 : Entity.checkCollision e.move.move player = true) :
    ((enemyTickOne player s e).2.2).health = s.health - 10 ∧
    ((enemyTickOne player ((enemyTickOne player s e).2.2)
        ((enemyTickOne player s e).1)).2.2).health = s.health - 20 ∧
    (s.health - 10 = 0 →
      ((enemyTickOne player s e).2.2).gameState = GameState.gameOver) := by
  simp only [enemyTickOne, applyEnemyContact, h1, h2, if_true]
  refine ⟨?_, ?_, fun h0 => ?_⟩
  · trivial
  · ring
  · simp [h0]

/-- C1 witness: a stationary enemy overlapping the player at 10 shared
health: one tick gives health 0 and GAME_OVER, a second overlapping tick
gives health -10. -/
theorem contact_damage_every_tick_witness :
    ((enemyTickOne samplePlayer lowHealthShared sampleEnemy).2.2).health =
      lowHealthShared.health - 10 ∧
    ((enemyTickOne samplePlayer
        ((enemyTickOne samplePlayer lowHealthShared sampleEnemy).2.2)
        ((enemyTickOne samplePlayer lowHealthShared sampleEnemy).1)).2.2).health =
      lowHealthShared.health - 20 ∧
    ((enemyTickOne samplePlayer lowHealthShared sampleEnemy).2.2).gameState =
      GameState.gameOver := by
  have h := contact_damage_every_tick samplePlayer sampleEnemy lowHealthShared
    (by norm_num [Entity.checkCollision, Entity.move, sampleEnemy, samplePlayer])
    (by norm_num [Entity.checkCollision, Entity.move, sampleEnemy, samplePlayer])
  exact ⟨h.1, h.2.1, h.2.2 (by decide)⟩

/-- C2 counterexample: enemy-contact damage is not clamped at 0. At shared
health 5 (reachable, e.g. 100 → nine contact ticks → 10 → Health powerup →
35 → three contact ticks → 5), one overlapping tick leaves health -5 < 0. -/
theorem contact_damage_not_clamped :
    ((enemyTickOne samplePlayer fiveHealthShared sampleEnemy).2.2).health = -5 ∧
    ((enemyTickOne samplePlayer fiveHealthShared sampleEnemy).2.2).health < 0 := by
  have hcol : Entity.checkCollision sampleEnemy.move samplePlayer = true := by
    norm_num [Entity.checkCollision, Entity.move, sampleEnemy, samplePlayer]
  norm_num [enemyTickOne, applyEnemyContact, hcol, fiveHealthShared]

/-- C2 amended: the Health powerup keeps health at most 100 and takes 90 to
exactly 100 (never 115); enemy contact subtracts exactly 10 with no lower
clamp, and the tick that takes health to 0 or below also sets GAME_OVER. -/
theorem health_bounds_amended (h : ℤ) (player e : Entity) (s : SharedState)
    (hcol : Entity.checkCollision e.move player = true) :
    applyHealthPowerup h ≤ 100 ∧
    applyHealthPowerup 90 = 100 ∧
    ((enemyTickOne player s e).2.2).health = s.health - 10 ∧
    (((enemyTickOne player s e).2.2).health ≤ 0 →
      ((enemyTickOne player s e).2.2).gameState = GameState.gameOver) := by
  simp only [enemyTickOne, applyEnemyContact, hcol, if_true]
  refine ⟨min_le_left _ _, by decide, ?_, fun h0 => ?_⟩
  · trivial
  · simp only at h0
    simp [h0]

/-- C2 amended witness: at health 5 with an overlapping enemy, one tick
gives health -5 and GAME_OVER; the Health powerup at 90 gives 100. -/
theorem health_bounds_amended_witness :
    applyHealthPowerup 90 ≤ 100 ∧
    applyHealthPowerup 90 = 100 ∧
    ((enemyTickOne samplePlayer fiveHealthShared sampleEnemy).2.2).health =
      fiveHealthShared.health - 10 ∧
    ((enemyTickOne samplePlayer fiveHealthShared sampleEnemy).2.2).gameState =
      GameState.gameOver := by
  have h := health_bounds_amended 90 samplePlayer sampleEnemy fiveHealthShared
    (by norm_num [Entity.checkCollision, Entity.move, sampleEnemy, samplePlayer])
  refine ⟨h.1, h.2.1, h.2.2.1, h.2.2.2 ?_⟩
  rw [h.2.2.1]
  decide

/-- C10: the `invincible` flag set by the invincibility powerup is never
read by the enemy-contact block, so the change applied to the shared
scalars is identical whatever its value. -/
theorem invincible_no_effect_on_contact (p e : Entity) (s : SharedState) (b : Bool) :
    (applyEnemyContact { p with invincible := b } s e).health =
      (applyEnemyContact { p with invincible := false } s e).health ∧
    applyEnemyContact { p with invincible := b } s e =
      applyEnemyContact { p with invincible := false } s e :=
  ⟨rfl, rfl⟩

/-- The hit-from-below branch of the platform-collision loop is dead code:
its guard `player.y >= platform.y + platform.height` is tested after the
position update and contradicts the overlap gate
`player.y < platform.y + platform.height`. -/
theorem hit_from_below_branch_unreachable (p plat : Entity)
    (hcol : Entity.checkCollision p plat = true) :
    ¬ (p.vy < 0 ∧ plat.y + plat.height ≤ p.y) := by
  rintro ⟨-, hle⟩
  simp only [Entity.checkCollision, Bool.and_eq_true, decide_eq_true_eq] at hcol
  linarith [hcol.1.1.2]

/-- C3 (code bug): a player rising into a platform's underside is not
snapped below it. `risingPlayer` (top edge 121, vy = -2) rises into
`lowPlatform` (underside at 120): after the tick its top edge is 119.5,
overlapping the platform, yet y is not `platform.y + platform.height` and
vy is not zeroed. -/
theorem hit_from_below_never_snaps :
    Entity.checkCollision (integratePlayer risingPlayer) lowPlatform = true ∧
    (updatePlayerPhysics risingPlayer [lowPlatform]).y = 239 / 2 ∧
    (updatePlayerPhysics risingPlayer [lowPlatform]).vy = -3 / 2 ∧
    ¬ ((updatePlayerPhysics risingPlayer [lowPlatform]).y =
          lowPlatform.y + lowPlatform.height ∧
        (updatePlayerPhysics risingPlayer [lowPlatform]).vy = 0) := by
  norm_num [updatePlayerPhysics, integratePlayer, resolvePlatformCollision,
    Entity.checkCollision, Entity.move, risingPlayer, lowPlatform, gravity]

/-- C6: a falling player (vy > 0) whose bottom edge before the position
update was at or above a platform's top edge, and whose box overlaps the
platform after the update, is snapped on top of the platform in one tick:
vy = 0, grounded, y = platform.y - player.height. -/
theorem landing_on_platform (p plat : Entity)
    (hfall : 0 < p.vy)
    (hprev : p.y + p.height ≤ plat.y)
    (hcol : Entity.checkCollision (integratePlayer p) plat = true) :
    (updatePlayerPhysics p [plat]).vy = 0 ∧
    (updatePlayerPhysics p [plat]).onGround = true ∧
    (updatePlayerPhysics p [plat]).y = plat.y - p.height := by
  have hbranch : 0 < (integratePlayer p).vy ∧
      (integratePlayer p).y + (integratePlayer p).height - (integratePlayer p).vy ≤
        plat.y := by
    constructor
    · simp only [integratePlayer, Entity.move]
      simp only [gravity]
      linarith
    · simp only [integratePlayer, Entity.move]
      linarith
  simp only [updatePlayerPhysics, List.foldl_cons, List.foldl_nil,
    resolvePlatformCollision, hcol, if_true, if_pos hbranch]
  refine ⟨trivial, trivial, ?_⟩
  simp [integratePlayer, Entity.move]

/-- C6 witness: `fallingPlayer` (bottom edge 198, vy = 4) lands on
`groundPlatform` (top at 200) in one tick: vy = 0, grounded, y = 120. -/
theorem landing_on_platform_witness :
    0 < fallingPlayer.vy ∧
    fallingPlayer.y + fallingPlayer.height ≤ groundPlatform.y ∧
    (updatePlayerPhysics fallingPlayer [groundPlatform]).vy = 0 ∧
    (updatePlayerPhysics fallingPlayer [groundPlatform]).onGround = true ∧
    (updatePlayerPhysics fallingPlayer [groundPlatform]).y =
      groundPlatform.y - fallingPlayer.height := by
  have h := landing_on_platform fallingPlayer groundPlatform
    (by norm_num [fallingPlayer])
    (by norm_num [fallingPlayer, groundPlatform])
    (by norm_num [Entity.checkCollision, integratePlayer, Entity.move,
      fallingPlayer, groundPlatform, gravity])
  exact ⟨by norm_num [fallingPlayer], by norm_num [fallingPlayer, groundPlatform],
    h.1, h.2.1, h.2.2⟩

/-- C4 counterexample: `reset_game` sets `entity_id_counter` back to 0, so
the creation following a restart reuses id 0: the run
create–reset–create allocates [0, 0], which is neither unique nor
strictly increasing across the process lifetime. -/
theorem ids_reused_after_reset :
    allocIds [WorldOp.create, WorldOp.resetGame, WorldOp.create] = [0, 0] ∧
    ¬ (allocIds [WorldOp.create, WorldOp.resetGame, WorldOp.create]).Nodup := by
  decide

/-- Along a run with no `reset_game`, allocated ids are strictly increasing
and all at least the starting counter value. -/
theorem allocIdsFrom_pairwise_lt (ops : List WorldOp) :
    ∀ c : ℕ, WorldOp.resetGame ∉ ops →
      List.Pairwise (· < ·) (allocIdsFrom c ops) ∧
      ∀ i ∈ allocIdsFrom c ops, c ≤ i := by
  induction ops with
  | nil => intro c _; simp [allocIdsFrom]
  | cons op rest ih =>
    intro c hno
    cases op with
    | create =>
      have hrest : WorldOp.resetGame ∉ rest := fun hm => hno (List.mem_cons_of_mem _ hm)
      obtain ⟨hp, hb⟩ := ih (c + 1) hrest
      refine ⟨List.pairwise_cons.mpr ⟨fun i hi => ?_, hp⟩, fun i hi => ?_⟩
      · exact Nat.lt_of_lt_of_le (Nat.lt_succ_self c) (hb i hi)
      · rcases List.mem_cons.mp hi with h | h
        · exact h ▸ Nat.le_refl c
        · exact Nat.le_of_succ_le (hb i h)
    | resetGame => exact absurd (List.mem_cons_self _ _) hno

/-- C4 amended: within a single game session (no intervening
`reset_game`), entity ids are strictly increasing, hence unique, and each
new id exceeds all previously allocated ones; `reset_game` resets the
counter, so uniqueness does not extend across restarts. -/
theorem ids_strictly_increasing_without_reset (ops : List WorldOp)
    (h : WorldOp.resetGame ∉ ops) :
    List.Pairwise (· < ·) (allocIds ops) :=
  (allocIdsFrom_pairwise_lt ops 0 h).1

/-- C4 amended witness: three creations with no reset allocate [0, 1, 2],
pairwise strictly increasing. -/
theorem ids_strictly_increasing_without_reset_witness :
    WorldOp.resetGame ∉ [WorldOp.create, WorldOp.create, WorldOp.create] ∧
    List.Pairwise (· < ·)
      (allocIds [WorldOp.create, WorldOp.create, WorldOp.create]) :=
  ⟨by decide, ids_strictly_increasing_without_reset _ (by decide)⟩

/-- `list.remove` keyed by id: when the ids in the list are unique and
some element carries id `k`, removal succeeds and `k` is gone from the
result. -/
theorem listRemoveById_removes (k : ℕ) (l : List Entity)
    (hnd : (l.map Entity.id).Nodup)
    (hmem : ∃ e ∈ l, e.id = k) :
    ∃ l', listRemoveById k l = some l' ∧ k ∉ l'.map Entity.id := by
  induction l with
  | nil => simp at hmem
  | cons e rest ih =>
    by_cases he : e.id = k
    · refine ⟨rest, by simp [listRemoveById, he], ?_⟩
      have hni := (List.nodup_cons.mp hnd).1
      exact he ▸ hni
    · obtain ⟨e', he', hk⟩ := hmem
      rcases List.mem_cons.mp he' with rfl | hmem'
      · exact absurd hk he
      · obtain ⟨l', hl', hnot⟩ := ih (List.nodup_cons.mp hnd).2 ⟨e', hmem', hk⟩
        refine ⟨e :: l', by simp [listRemoveById, he, hl'], ?_⟩
        simp only [List.map_cons, List.mem_cons, not_or]
        exact ⟨fun hh => he hh.symm, hnot⟩

/-- `del entities[k]`: when some key equals `k`, deletion succeeds and `k`
is gone from the resulting key set. -/
theorem dictDel_removes (k : ℕ) (m : List (ℕ × Entity))
    (hmem : ∃ kv ∈ m, kv.1 = k) :
    ∃ m', dictDel m k = some m' ∧ k ∉ m'.map Prod.fst := by
  have hany : (m.any fun kv => kv.1 == k) = true := by
    obtain ⟨kv, hkv, hk⟩ := hmem
    exact List.any_eq_true.mpr ⟨kv, hkv, by simp [hk]⟩
  refine ⟨m.filter fun kv => kv.1 != k, by simp [dictDel, hany], ?_⟩
  intro hmm
  obtain ⟨kv, hkv, hk⟩ := List.mem_map.mp hmm
  have hf := List.of_mem_filter hkv
  simp [hk] at hf

/-- C5 counterexample: removal of an absent id is not a no-op. Removing
id 1 from `sampleStore` succeeds and empties both indices, but repeating
the removal of id 1 — and removing the never-present id 5 — raises
(`list.remove` ValueError / `del` KeyError, modelled as `none`) instead of
returning the store unchanged. -/
theorem second_remove_raises :
    removeEnemyById sampleStore 1 = some { entities := [], enemies := [] } ∧
    (removeEnemyById sampleStore 1).bind (fun w => removeEnemyById w 1) = none ∧
    removeEnemyById { entities := [], enemies := [] } 5 = none :=
  ⟨rfl, rfl, rfl⟩

/-- C5 amended: removing a present id (ids being unique, as `create_entity`
guarantees within a session) deletes the entity from both the global map
and the kind index; but removing an id that is not present raises an
exception rather than being a no-op — the source only ever removes
entities it just found in the live lists. -/
theorem remove_deletes_from_both (w : WorldStore) (k : ℕ)
    (hnd : (w.enemies.map Entity.id).Nodup)
    (hmem : ∃ e ∈ w.enemies, e.id = k)
    (hdict : ∃ kv ∈ w.entities, kv.1 = k) :
    ∃ w', removeEnemyById w k = some w' ∧
      k ∉ w'.enemies.map Entity.id ∧
      k ∉ w'.entities.map Prod.fst := by
  obtain ⟨es, hes, hnot1⟩ := listRemoveById_removes k w.enemies hnd hmem
  obtain ⟨m, hm, hnot2⟩ := dictDel_removes k w.entities hdict
  exact ⟨{ entities := m, enemies := es },
    by simp [removeEnemyById, hes, hm], hnot1, hnot2⟩

/-- C5 amended witness: removing the present id 1 from `sampleStore`
deletes it from both indices. -/
theorem remove_deletes_from_both_witness :
    ((sampleStore.enemies.map Entity.id).Nodup ∧
      (∃ e ∈ sampleStore.enemies, e.id = 1) ∧
      (∃ kv ∈ sampleStore.entities, kv.1 = 1)) ∧
    ∃ w', removeEnemyById sampleStore 1 = some w' ∧
      1 ∉ w'.enemies.map Entity.id ∧
      1 ∉ w'.entities.map Prod.fst := by
  have h1 : (sampleStore.enemies.map Entity.id).Nodup := by simp [sampleStore]
  have h2 : ∃ e ∈ sampleStore.enemies, e.id = 1 :=
    ⟨sampleEnemy, by simp [sampleStore], rfl⟩
  have h3 : ∃ kv ∈ sampleStore.entities, kv.1 = 1 :=
    ⟨(1, sampleEnemy), by simp [sampleStore], rfl⟩
  exact ⟨⟨h1, h2, h3⟩, remove_deletes_from_both sampleStore 1 h1 h2 h3⟩

/-- C7: when a projectile overlaps the first enemy of the list, the
enemy's health drops by the projectile's damage; the enemy is removed and
the score awarded exactly when the resulting health is ≤ 0; and the
projectile is removed unconditionally on any hit. -/
theorem projectile_hit_resolution (proj e : Entity) (rest : List Entity)
    (w sc : ℤ) (hc : Entity.checkCollision proj e = true) :
    (projectileHitEnemies proj w sc (e :: rest)).projectileRemoved = true ∧
    (e.health - proj.damage ≤ 0 →
      (projectileHitEnemies proj w sc (e :: rest)).enemies = rest ∧
      (projectileHitEnemies proj w sc (e :: rest)).score =
        sc + scoreGain e.enemyType w ∧
      (projectileHitEnemies proj w sc (e :: rest)).kills = 1) ∧
    (0 < e.health - proj.damage →
      (projectileHitEnemies proj w sc (e :: rest)).enemies =
        { e with health := e.health - proj.damage } :: rest ∧
      (projectileHitEnemies proj w sc (e :: rest)).score = sc ∧
      (projectileHitEnemies proj w sc (e :: rest)).kills = 0) := by
  by_cases hk : e.health - proj.damage ≤ 0
  · refine ⟨?_, fun _ => ⟨?_, ?_, ?_⟩, fun hpos => absurd hk (by omega)⟩ <;>
      simp [projectileHitEnemies, hc, hk]
  · refine ⟨?_, fun hle => absurd hle hk, fun _ => ⟨?_, ?_, ?_⟩⟩ <;>
      simp [projectileHitEnemies, hc, hk]

/-- C7 witness: a 10-damage primary projectile on a 20-health type-3
enemy: the first hit leaves the enemy alive at 10 health with no score and
removes the projectile; the second hit removes the enemy and awards the
score, for exactly 2 hits with score on the second only. -/
theorem projectile_hit_resolution_witness :
    Entity.checkCollision primaryProjectile fastEnemy = true ∧
    (projectileHitEnemies primaryProjectile 1 0 [fastEnemy]).enemies =
      [fastEnemyHit] ∧
    (projectileHitEnemies primaryProjectile 1 0 [fastEnemy]).score = 0 ∧
    (projectileHitEnemies primaryProjectile 1 0 [fastEnemy]).projectileRemoved
      = true ∧
    (projectileHitEnemies primaryProjectile 1 0 [fastEnemyHit]).enemies = [] ∧
    (projectileHitEnemies primaryProjectile 1 0 [fastEnemyHit]).score =
      scoreGain 3 1 ∧
    (projectileHitEnemies primaryProjectile 1 0 [fastEnemyHit]).projectileRemoved
      = true := by
  have hcol : Entity.checkCollision primaryProjectile fastEnemy = true := by
    norm_num [Entity.checkCollision, primaryProjectile, fastEnemy]
  have hcol2 : Entity.checkCollision primaryProjectile fastEnemyHit = true := hcol
  have h1 := projectile_hit_resolution primaryProjectile fastEnemy [] 1 0 hcol
  have h2 := projectile_hit_resolution primaryProjectile fastEnemyHit [] 1 0 hcol2
  have halive := h1.2.2 (by decide)
  have hkill := h2.2.1 (by decide)
  refine ⟨hcol, ?_, halive.2.1, h1.1, hkill.1, ?_, h2.1⟩
  · rw [halive.1]
    rfl
  · rw [hkill.2.1, zero_add]
    rfl

/-- C8: the score awarded for a killing hit is exactly
`10 + (enemy_type - 1) * 5 + (wave - 1) * 2` in integer arithmetic, with
`scoreGain 1 1 = 10` and `scoreGain 3 3 = 24`. -/
theorem score_gain_formula (proj e : Entity) (rest : List Entity)
    (w sc : ℤ) (hc : Entity.checkCollision proj e = true)
    (hk : e.health - proj.damage ≤ 0) :
    (projectileHitEnemies proj w sc (e :: rest)).score - sc =
      10 + (e.enemyType - 1) * 5 + (w - 1) * 2 ∧
    scoreGain 1 1 = 10 ∧ scoreGain 3 3 = 24 := by
  refine ⟨?_, by decide, by decide⟩
  simp [projectileHitEnemies, hc, hk, scoreGain]

/-- C8 witness: a killing hit on a type-3 enemy in wave 3, starting from
score 5, awards exactly 24. -/
theorem score_gain_formula_witness :
    Entity.checkCollision primaryProjectile fastEnemyHit = true ∧
    fastEnemyHit.health - primaryProjectile.damage ≤ 0 ∧
    (projectileHitEnemies primaryProjectile 3 5 [fastEnemyHit]).score - 5 =
      10 + (fastEnemyHit.enemyType - 1) * 5 + (3 - 1) * 2 ∧
    scoreGain 1 1 = 10 ∧ scoreGain 3 3 = 24 := by
  have hcol : Entity.checkCollision primaryProjectile fastEnemyHit = true := by
    norm_num [Entity.checkCollision, primaryProjectile, fastEnemyHit, fastEnemy]
  have h := score_gain_formula primaryProjectile fastEnemyHit [] 3 5 hcol (by decide)
  exact ⟨hcol, by decide, h.1, h.2.1, h.2.2⟩

/-- The wave target invariant: after `k` wave advancements the wave number
is `k + 1` and the kill target is `10 + (wave - 1) * 5`. -/
theorem waveState_invariant (k : ℕ) :
    (advanceWave^[k] initWaveState).waveNumber = k + 1 ∧
    (advanceWave^[k] initWaveState).enemiesToKillForNextWave =
      10 + ((advanceWave^[k] initWaveState).waveNumber - 1) * 5 := by
  induction k with
  | zero => simp [initWaveState]
  | succ n ih =>
    rw [Function.iterate_succ_apply']
    obtain ⟨h1, _⟩ := ih
    simp [advanceWave, h1]

/-- C9: for every wave `n ≥ 1` reached by advancing `n - 1` times from the
initial state, the kill target equals `10 + (n - 1) * 5`, recomputed at
each wave increment; in particular waves 1, 2, 3 require 10, 15, 20
kills. -/
theorem wave_kill_target (k : ℕ) :
    (advanceWave^[k] initWaveState).waveNumber = k + 1 ∧
    (advanceWave^[k] initWaveState).enemiesToKillForNextWave =
      10 + ((advanceWave^[k] initWaveState).waveNumber - 1) * 5 ∧
    initWaveState.enemiesToKillForNextWave = 10 ∧
    (advanceWave initWaveState).enemiesToKillForNextWave = 15 ∧
    (advanceWave (advanceWave initWaveState)).enemiesToKillForNextWave = 20 := by
  obtain ⟨h1, h2⟩ := waveState_invariant k
  exact ⟨h1, h2, by decide, by decide, by decide⟩

/-- C9 witness: two advancements from the initial state give wave 3 with a
kill target of 20. -/
theorem wave_kill_target_witness :
    (advanceWave^[2] initWaveState).waveNumber = 3 ∧
    (advanceWave^[2] initWaveState).enemiesToKillForNextWave =
      10 + ((advanceWave^[2] initWaveState).waveNumber - 1) * 5 := by
  have h := wave_kill_target 2
  exact ⟨h.1, h.2.1⟩

/-- C10 witness: with `sampleEnemy` overlapping `samplePlayer` at 10
health, the shared health after contact is the same whether the player is
invincible or not. -/
theorem invincible_no_effect_on_contact_witness :
    (applyEnemyContact { samplePlayer with invincible := true }
        lowHealthShared sampleEnemy).health =
      (applyEnemyContact { samplePlayer with invincible := false }
        lowHealthShared sampleEnemy).health :=
  (invincible_no_effect_on_contact samplePlayer sampleEnemy lowHealthShared true).1

end AlienInvasion
